import Mathlib

/-!
Shallow embedding of the checkpointed ingestion core of the
divvybikes-share-success repository: the trips-ingestion loop
(`airflow/dags/divvy_data_ingestion.py`, `process_all_files`), the weather
ingestion (`airflow/dags/weather_data_ingestion_optimized.py` and
`airflow/scripts/manual_weather_collection.py`) and the GBFS ingestion
(`airflow/dags/gbfs_data_ingestion.py`).  External effects (S3 reads and
writes, HTTP requests) are modelled by explicit environment records and
oracles, and each processing function additionally returns the list of
store/network operations it performs, so that claims about "no fetch",
"no write" and "verification after upload" can be stated about the trace.
-/

namespace Divvy

/-! ## Static configuration (constants from the source files) -/

/-- YEARS_TO_PROCESS / YEARS in both DAGs and the manual script. -/
def YEARS : List Nat := [2023, 2024]

/-- MONTHS_TO_PROCESS / MONTHS: January to December. -/
def MONTHS : List Nat := List.range' 1 12

/-- Keys of the LOCATIONS dict (chicago, evanston). -/
def LOCATIONS : List String := ["chicago", "evanston"]

/-- API_RATE_LIMIT_DELAY = 2 in the weather DAG and the manual script. -/
def API_RATE_LIMIT_DELAY : Nat := 2

/-- max_retries = 3 inside fetch_weather_data_for_month. -/
def max_retries : Nat := 3

/-- Python `f"\x7bn:02d\x7d"` for a natural number. -/
def pad2 (n : Nat) : String :=
  if n < 10 then "0" ++ toString n else toString n

/-- Python `f"\x7bn:04d\x7d"` for a natural number. -/
def pad4 (n : Nat) : String :=
  if n < 10 then "000" ++ toString n
  else if n < 100 then "00" ++ toString n
  else if n < 1000 then "0" ++ toString n
  else toString n

/-! ## Partition key builders (string templates from the source) -/

/-- Source ZIP key: `f"\x7byear:04d\x7d\x7bmonth:02d\x7d-divvy-tripdata.zip"`
(generate_monthly_files). -/
def divvySourceKey (year month : Nat) : String :=
  pad4 year ++ pad2 month ++ "-divvy-tripdata.zip"

/-- Target CSV key:
`f"divvy-trips/year=\x7byear\x7d/month=\x7bmonth:02d\x7d/\x7byear:04d\x7d\x7bmonth:02d\x7d-divvy-tripdata.csv"`
(generate_monthly_files; TARGET_BRONZE_PREFIX = "divvy-trips"). -/
def divvyTargetKey (year month : Nat) : String :=
  "divvy-trips/year=" ++ toString year ++ "/month=" ++ pad2 month ++ "/" ++
    pad4 year ++ pad2 month ++ "-divvy-tripdata.csv"

/-- Weather key:
`f"weather-data/location=\x7blocation\x7d/year=\x7byear\x7d/month=\x7bmonth:02d\x7d/weather_data_\x7blocation\x7d_\x7byear\x7d_\x7bmonth:02d\x7d.csv"`
(check_existing_files, process_location_year, get_missing_files, upload_to_s3). -/
def weatherKey (location : String) (year month : Nat) : String :=
  "weather-data/location=" ++ location ++ "/year=" ++ toString year ++
    "/month=" ++ pad2 month ++ "/weather_data_" ++ location ++ "_" ++
    toString year ++ "_" ++ pad2 month ++ ".csv"

/-! ## UnitOfWork and the unified key builder (spec section 3 / 4.1,
realised in the source by the inline f-strings above) -/

inductive SourceKind where
  | trips
  | weather
deriving DecidableEq, Repr

structure UnitOfWork where
  source : SourceKind
  location : String
  year : Nat
  month : Nat
deriving DecidableEq, Repr

/-- Storage key of a unit of work, exactly as the source scripts build it. -/
def build_key (u : UnitOfWork) : String :=
  match u.source with
  | .trips => divvyTargetKey u.year u.month
  | .weather => weatherKey u.location u.year u.month

/-- All units of work the pipelines ever enumerate: 24 trips units
(2 years × 12 months, generate_monthly_files) and 48 weather units
(2 locations × 2 years × 12 months). -/
def allUnits : List UnitOfWork :=
  (YEARS.flatMap fun y => MONTHS.map fun m => ⟨.trips, "", y, m⟩) ++
    (LOCATIONS.flatMap fun loc =>
      YEARS.flatMap fun y => MONTHS.map fun m => ⟨.weather, loc, y, m⟩)

/-! ## Operation traces -/

/-- One externally visible operation of a processing step.  `httpGet` is one
HTTP request attempt against the weather or GBFS API; the other three are
object-store operations (check_for_key, get_key / download, load_bytes /
load_string / put_object). -/
inductive Op where
  | httpGet
  | checkKey (key : String)
  | getObject (key : String)
  | putObject (key : String)
deriving DecidableEq, Repr

/-- An operation that transfers a payload: a source download or a store write. -/
def isTransferOp : Op → Bool
  | .getObject _ => true
  | .putObject _ => true
  | _ => false

/-- An existence check against the object store. -/
def isCheckOp : Op → Bool
  | .checkKey _ => true
  | _ => false

/-! ## Trips ingestion (divvy_data_ingestion.py, process_all_files) -/

/-- file_info record produced by generate_monthly_files. -/
structure FileInfo where
  year : Nat
  month : Nat
  source_key : String
  target_key : String
deriving DecidableEq, Repr

def mkFileInfo (year month : Nat) : FileInfo :=
  { year := year, month := month
    source_key := divvySourceKey year month
    target_key := divvyTargetKey year month }

/-- generate_monthly_files: the 24 file_info records, in loop order. -/
def generateMonthlyFiles : List FileInfo :=
  YEARS.flatMap fun y => MONTHS.map fun m => mkFileInfo y m

/-- Per-file status recorded by process_all_files
(file_info['status']). -/
inductive DStatus where
  | source_missing
  | skipped_exists
  | success
  | failed
deriving DecidableEq, Repr

/-- Environment for one trips unit: results of the external calls made while
processing it.  `sourceExists` and `targetExists` are the two check_for_key
results, `downloadOk` is whether get_key succeeds, `zipEntries` is the ZIP
namelist, `uploadOk` is whether load_bytes succeeds and `postUploadExists`
is the check_for_key result after the upload (step 6). -/
structure DivvyEnv where
  sourceExists : Bool
  targetExists : Bool
  downloadOk : Bool
  zipEntries : List String
  uploadOk : Bool
  postUploadExists : Bool
deriving DecidableEq, Repr

/-- Is `p` a prefix of the first list?  (Structural helper used to express
Python's `endswith` and `in` over the character lists of the strings.) -/
def listStartsWith : List Char → List Char → Bool
  | _, [] => true
  | [], _ :: _ => false
  | c :: cs, p :: ps => c == p && listStartsWith cs ps

/-- Does the first list contain `p` as a contiguous sublist? -/
def listContainsSub : List Char → List Char → Bool
  | [], p => p.isEmpty
  | c :: cs, p => listStartsWith (c :: cs) p || listContainsSub cs p

/-- Python `s.endswith(suffix)`. -/
def strEndsWith (s suffix : String) : Bool :=
  listStartsWith s.toList.reverse suffix.toList.reverse

/-- Python `pat in s` (substring containment). -/
def strContainsSub (s pat : String) : Bool :=
  listContainsSub s.toList pat.toList

/-- The member predicate of the extraction loop:
`filename.endswith('.csv') and 'divvy-tripdata' in filename`. -/
def isMatchingCsv (filename : String) : Bool :=
  strEndsWith filename ".csv" && strContainsSub filename "divvy-tripdata"

/-- First matching member of the ZIP namelist (the `for filename in
zip_file.namelist()` loop with `break`). -/
def findCsv (entries : List String) : Option String :=
  entries.find? isMatchingCsv

/-- One iteration of the process_all_files loop for one file_info, as a
function of the unit's environment; exceptions raised inside the loop body
are caught by the surrounding `except` and become status `failed`.  Returns
the recorded status and the trace of external operations. -/
def processFile (e : DivvyEnv) (f : FileInfo) : DStatus × List Op :=
  if !e.sourceExists then
    (.source_missing, [.checkKey f.source_key])
  else if e.targetExists then
    (.skipped_exists, [.checkKey f.source_key, .checkKey f.target_key])
  else if !e.downloadOk then
    (.failed, [.checkKey f.source_key, .checkKey f.target_key, .getObject f.source_key])
  else
    match findCsv e.zipEntries with
    | none =>
        (.failed, [.checkKey f.source_key, .checkKey f.target_key, .getObject f.source_key])
    | some _ =>
        if !e.uploadOk then
          (.failed, [.checkKey f.source_key, .checkKey f.target_key,
            .getObject f.source_key, .putObject f.target_key])
        else if e.postUploadExists then
          (.success, [.checkKey f.source_key, .checkKey f.target_key,
            .getObject f.source_key, .putObject f.target_key, .checkKey f.target_key])
        else
          (.failed, [.checkKey f.source_key, .checkKey f.target_key,
            .getObject f.source_key, .putObject f.target_key, .checkKey f.target_key])

/-- Does a status increment failed_files in process_all_files?  The
source_missing branch executes `failed_files += 1`, as does the except
branch. -/
def countsAsFailed : DStatus → Bool
  | .source_missing => true
  | .failed => true
  | _ => false

/-- Aggregate returned by process_all_files. -/
structure RunResult where
  total_files : Nat
  successful : Nat
  skipped : Nat
  failed : Nat
  results : List (FileInfo × DStatus × List Op)
deriving Repr

/-- The process_all_files loop over a list of file_info records. -/
def runDivvyOn (env : FileInfo → DivvyEnv) : List FileInfo → RunResult
  | [] => { total_files := 0, successful := 0, skipped := 0, failed := 0, results := [] }
  | f :: fs =>
      let r := processFile (env f) f
      let rest := runDivvyOn env fs
      { total_files := rest.total_files + 1
        successful := (if r.1 = .success then 1 else 0) + rest.successful
        skipped := (if r.1 = .skipped_exists then 1 else 0) + rest.skipped
        failed := (if countsAsFailed r.1 then 1 else 0) + rest.failed
        results := (f, r) :: rest.results }

/-- process_all_files: run the loop over the full generated file list. -/
def runDivvy (env : FileInfo → DivvyEnv) : RunResult :=
  runDivvyOn env generateMonthlyFiles

/-- All external calls of one unit succeed and the unit is genuinely missing:
source exists, target absent, download works, ZIP holds a matching CSV,
upload works and the post-upload check sees the object. -/
def goodDivvyEnv (e : DivvyEnv) : Prop :=
  e.sourceExists = true ∧ e.targetExists = false ∧ e.downloadOk = true ∧
    (findCsv e.zipEntries).isSome = true ∧ e.uploadOk = true ∧
    e.postUploadExists = true

/-! ## Weather fetch with retry
(fetch_weather_data_for_month in weather_data_ingestion_optimized.py and,
with the identical loop, in manual_weather_collection.py) -/

/-- Result of one `requests.get` attempt: a connection/timeout failure
(a RequestException with no response) or an HTTP status code. -/
inductive HttpResp where
  | netErr
  | status (code : Nat)
deriving DecidableEq, Repr

/-- Does the attempt raise `requests.exceptions.RequestException`?  A network
error does directly; `response.raise_for_status()` raises `HTTPError`
(a RequestException subclass) for every status of 400 and above — client
errors and server errors alike. -/
def respFails : HttpResp → Bool
  | .netErr => true
  | .status code => 400 ≤ code

def statusCodeOf : HttpResp → Nat
  | .netErr => 0
  | .status code => code

/-- Successful outcome of the retry loop: the final status code, the number
of retry attempts consumed before success (the 0-based index of the
successful attempt) and the sleep delays executed between attempts. -/
structure FetchOk where
  code : Nat
  retries_used : Nat
  sleeps : List Nat
deriving DecidableEq, Repr

/-- The `for attempt in range(max_retries)` loop: on a RequestException at
the last attempt re-raise, otherwise sleep
`API_RATE_LIMIT_DELAY * (attempt + 1)` and try again; on a non-error
response break out. -/
def fetchGo (oracle : Nat → HttpResp) :
    Nat → Nat → List Nat → Except String FetchOk
  | _, 0, _ => .error "API request failed after 3 attempts"
  | attempt, remaining + 1, sleeps =>
      if respFails (oracle attempt) then
        if remaining = 0 then
          .error "API request failed after 3 attempts"
        else
          fetchGo oracle (attempt + 1) remaining
            (sleeps ++ [API_RATE_LIMIT_DELAY * (attempt + 1)])
      else
        .ok { code := statusCodeOf (oracle attempt), retries_used := attempt
              sleeps := sleeps }

/-- The whole retry loop of fetch_weather_data_for_month, with the response
of attempt `i` given by `oracle i`. -/
def fetchWeather (oracle : Nat → HttpResp) : Except String FetchOk :=
  fetchGo oracle 0 max_retries []

/-- The linear backoff schedule after k failed attempts: delays
`API_RATE_LIMIT_DELAY * 1, …, API_RATE_LIMIT_DELAY * k`. -/
def backoffs (k : Nat) : List Nat :=
  (List.range k).map fun i => API_RATE_LIMIT_DELAY * (i + 1)

/-! ## Weather month processing (process_location_year) -/

/-- Environment for one weather month: the HTTP oracle of the retry loop and
whether the parsed JSON body contains the 'daily' key. -/
structure MonthEnv where
  httpResp : Nat → HttpResp
  hasDaily : Bool

/-- What process_location_year records for one month: appended to
processed_files, skipped_files or failed_files. -/
inductive WStatus where
  | processed
  | skipped
  | failed
deriving DecidableEq, Repr

/-- One iteration of the `for month in MONTHS` loop of
process_location_year: skip when the key is in the checkpoint set,
otherwise fetch (with retries), check the 'daily' key, convert to CSV and
upload via load_string — with no existence check after the upload.
Exceptions are caught per month and recorded as failed. -/
def processMonth (existing : List String) (env : MonthEnv)
    (location : String) (year month : Nat) : WStatus × List Op :=
  let key := weatherKey location year month
  if key ∈ existing then
    (.skipped, [])
  else
    match fetchWeather env.httpResp with
    | .error _ => (.failed, List.replicate max_retries .httpGet)
    | .ok ok =>
        if env.hasDaily then
          (.processed, List.replicate (ok.retries_used + 1) .httpGet ++ [.putObject key])
        else
          (.failed, List.replicate (ok.retries_used + 1) .httpGet)

/-- The month loop of process_location_year for one location and year,
with each month's outcome paired with the month. -/
def processLocationYear (existing : List String) (env : Nat → MonthEnv)
    (location : String) (year : Nat) : List (Nat × WStatus × List Op) :=
  MONTHS.map fun m => (m, processMonth existing (env m) location year m)

/-- A month whose fetch succeeds on the first attempt and whose body has the
'daily' key. -/
def goodMonthEnv : MonthEnv :=
  { httpResp := fun _ => .status 200, hasDaily := true }

/-! ## Checkpoint diff (check_existing_files in the weather DAG) -/

/-- The triple loop of check_existing_files and get_missing_files:
all 48 expected weather keys, in enumeration order. -/
def expectedWeatherFiles : List String :=
  LOCATIONS.flatMap fun loc =>
    YEARS.flatMap fun y => MONTHS.map fun m => weatherKey loc y m

/-- Value returned by check_existing_files.  The completion percentage
`(len(existing_files) / len(expected_files)) * 100` is modelled with exact
rational arithmetic. -/
structure CheckResult where
  existing_files : List String
  missing_files : List String
  total_expected : Nat
  completion_percentage : ℚ
deriving Repr

/-- check_existing_files: partition the expected keys by membership in the
S3 listing under the 'weather-data/' prefix. -/
def check_existing_files (existingKeys : List String) : CheckResult :=
  let existing := expectedWeatherFiles.filter fun k => k ∈ existingKeys
  let missing := expectedWeatherFiles.filter fun k => k ∉ existingKeys
  { existing_files := existing
    missing_files := missing
    total_expected := expectedWeatherFiles.length
    completion_percentage :=
      ((existing.length : ℚ) / (expectedWeatherFiles.length : ℚ)) * 100 }

/-- Completion percentage of generate_final_report (and of main in
manual_weather_collection.py): the number of keys under the prefix that end
in '.csv', over the constant 48. -/
def finalReportCompletion (currentFiles : List String) : ℚ :=
  (((currentFiles.filter fun k => strEndsWith k ".csv").length : ℚ) / 48) * 100

/-! ## GBFS ingestion (gbfs_data_ingestion.py, fetch_and_store_gbfs_data) -/

/-- The execution_date fields the function reads. -/
structure ExecDate where
  year : Nat
  month : Nat
  day : Nat
  hour : Nat
  timestampStr : String
  epoch : Nat
deriving DecidableEq, Repr

/-- Parsed GBFS response body: whether the 'data' envelope is present, and
whether / with what value 'last_updated' is present. -/
structure GbfsData where
  hasData : Bool
  hasLastUpdated : Bool
  lastUpdated : Nat
deriving DecidableEq, Repr

/-- Partitioned S3 key for a GBFS endpoint: hourly partitioning for
station_status, daily for the others. -/
def gbfsKey (endpointName : String) (d : ExecDate) : String :=
  if endpointName = "station_status" then
    "gbfs-data/endpoint=" ++ endpointName ++ "/year=" ++ toString d.year ++
      "/month=" ++ pad2 d.month ++ "/day=" ++ pad2 d.day ++ "/hour=" ++
      pad2 d.hour ++ "/" ++ endpointName ++ "_" ++ d.timestampStr ++ ".json"
  else
    "gbfs-data/endpoint=" ++ endpointName ++ "/year=" ++ toString d.year ++
      "/month=" ++ pad2 d.month ++ "/day=" ++ pad2 d.day ++ "/" ++
      endpointName ++ "_" ++ d.timestampStr ++ ".json"

/-- Outcome of fetch_and_store_gbfs_data: the stored key together with the
data_timestamp written into the enriched record, or a raised error. -/
inductive GbfsOutcome where
  | stored (key : String) (dataTimestamp : Nat)
  | errorInvalid
  | httpError
deriving DecidableEq, Repr

/-- fetch_and_store_gbfs_data: an HTTP/JSON failure propagates; a body
without 'data' raises ValueError("Invalid GBFS response structure ...");
otherwise the enriched record is built — with
`data_timestamp = data.get('last_updated', execution_date.timestamp())`,
so a missing 'last_updated' is replaced by the execution timestamp — and
uploaded with load_string, with no existence check afterwards. -/
def fetchAndStoreGbfs (resp : Option GbfsData) (endpointName : String)
    (d : ExecDate) : GbfsOutcome × List Op :=
  match resp with
  | none => (.httpError, [.httpGet])
  | some r =>
      if !r.hasData then
        (.errorInvalid, [.httpGet])
      else
        (.stored (gbfsKey endpointName d)
          (if r.hasLastUpdated then r.lastUpdated else d.epoch),
          [.httpGet, .putObject (gbfsKey endpointName d)])

/-! ## Concrete environments and oracles used by witnesses and
counterexamples -/

/-- Every external call of the unit succeeds; the target is missing and the
ZIP holds the expected CSV member. -/
def envAllGood : DivvyEnv :=
  { sourceExists := true, targetExists := false, downloadOk := true
    zipEntries := ["202301-divvy-tripdata.csv"], uploadOk := true
    postUploadExists := true }

/-- Environment function assigning every unit the all-good environment. -/
def envAllGoodFun : FileInfo → DivvyEnv := fun _ => envAllGood

/-- The source bucket lacks every expected ZIP. -/
def envAllMissing : FileInfo → DivvyEnv :=
  fun _ =>
    { sourceExists := false, targetExists := false, downloadOk := true
      zipEntries := [], uploadOk := true, postUploadExists := true }

/-- The target key is already present but the source ZIP is absent. -/
def envTargetPresentSourceMissing : DivvyEnv :=
  { sourceExists := false, targetExists := true, downloadOk := true
    zipEntries := [], uploadOk := true, postUploadExists := true }

/-- The target key is present and the source exists. -/
def envSkip : DivvyEnv :=
  { sourceExists := true, targetExists := true, downloadOk := true
    zipEntries := [], uploadOk := true, postUploadExists := true }

/-- HTTP oracle: status 500 on the first two attempts, 200 afterwards. -/
def oracle2fail : Nat → HttpResp :=
  fun i => if i < 2 then .status 500 else .status 200

/-- HTTP oracle: status 500 on the first three attempts, 200 afterwards. -/
def oracle3fail : Nat → HttpResp :=
  fun i => if i < 3 then .status 500 else .status 200

/-- HTTP oracle: status 404 on the first attempt, 200 afterwards. -/
def oracle404 : Nat → HttpResp :=
  fun i => if i = 0 then .status 404 else .status 200

/-- HTTP oracle: a network error on the first attempt, 200 afterwards. -/
def oracleNetErr : Nat → HttpResp :=
  fun i => if i = 0 then .netErr else .status 200

/-- A store listing holding 49 distinct `.csv` keys under the weather
prefix, none of them an expected weather key. -/
def junkListing : List String :=
  (List.range 49).map fun i => "weather-data/junk" ++ toString i ++ ".csv"

/-- A GBFS body that has the 'data' envelope but no 'last_updated' field. -/
def respNoLastUpdated : GbfsData :=
  { hasData := true, hasLastUpdated := false, lastUpdated := 0 }

/-- A concrete execution date for the GBFS tasks. -/
def execDate0 : ExecDate :=
  { year := 2025, month := 7, day := 27, hour := 6
    timestampStr := "2025-07-27_06-00-00", epoch := 1753596000 }

/-! ## Helper lemmas about the trips run loop -/

theorem runDivvyOn_results (env : FileInfo → DivvyEnv) (us : List FileInfo) :
    (runDivvyOn env us).results = us.map fun f => (f, processFile (env f) f) := by
  induction us with
  | nil => rfl
  | cons f fs ih => simp [runDivvyOn, ih]

theorem runDivvyOn_total (env : FileInfo → DivvyEnv) (us : List FileInfo) :
    (runDivvyOn env us).total_files = us.length := by
  induction us with
  | nil => rfl
  | cons f fs ih => simp [runDivvyOn, ih]

theorem runDivvyOn_failed (env : FileInfo → DivvyEnv) (us : List FileInfo) :
    (runDivvyOn env us).failed =
      us.countP fun f => countsAsFailed (processFile (env f) f).1 := by
  induction us with
  | nil => rfl
  | cons f fs ih => simp [runDivvyOn, ih, List.countP_cons]; omega

/-! ## C1: idempotent skip of already-materialized units -/

/-- C1 counterexample: in the trips pipeline the source-existence check runs
before the target-existence check, so a unit whose storage key is already
present in the Bronze bucket but whose source ZIP is absent is recorded
source_missing, not skipped_exists. -/
theorem skip_claim_counterexample :
    (processFile envTargetPresentSourceMissing (mkFileInfo 2023 1)).1 =
      DStatus.source_missing ∧
    DStatus.source_missing ≠ DStatus.skipped_exists := by
  decide

/-- C1 (amended): a unit whose storage key is already present is recorded
skipped_exists with no payload download and no write, provided (in the trips
pipeline) its source object also exists; a weather month whose key is in
the checkpoint set is skipped with no operation at all.  No force override
exists in either configuration surface. -/
theorem skip_when_target_exists (e : DivvyEnv) (f : FileInfo)
    (hsrc : e.sourceExists = true) (htgt : e.targetExists = true)
    (existing : List String) (wenv : MonthEnv) (location : String)
    (year month : Nat) (hkey : weatherKey location year month ∈ existing) :
    (processFile e f).1 = DStatus.skipped_exists ∧
    ((processFile e f).2.countP isTransferOp = 0) ∧
    processMonth existing wenv location year month = (WStatus.skipped, []) := by
  refine ⟨?_, ?_, ?_⟩
  · simp [processFile, hsrc, htgt]
  · simp [processFile, hsrc, htgt, List.countP_cons, isTransferOp]
  · simp [processMonth, hkey]

/-- Witness for C1's amended theorem at a concrete environment. -/
theorem skip_when_target_exists_witness :
    (processFile envSkip (mkFileInfo 2023 1)).1 = DStatus.skipped_exists ∧
    ((processFile envSkip (mkFileInfo 2023 1)).2.countP isTransferOp = 0) ∧
    processMonth [weatherKey "chicago" 2023 1] goodMonthEnv "chicago" 2023 1 =
      (WStatus.skipped, []) :=
  skip_when_target_exists envSkip (mkFileInfo 2023 1) rfl rfl
    [weatherKey "chicago" 2023 1] goodMonthEnv "chicago" 2023 1 (by decide)

/-! ## C3: the 500-500-500-200 scenario -/

/-- C3 counterexample: with max_retries = 3 the loop makes at most three
attempts, so three consecutive 500 responses exhaust the retry budget and
the month fails — the fourth attempt never happens. -/
theorem retry_scenario_counterexample :
    (processMonth []
        { httpResp := oracle3fail, hasDaily := true } "chicago" 2023 2).1 =
      WStatus.failed ∧
    WStatus.failed ≠ WStatus.processed := by
  decide

/-- C3 (amended): for the chicago 2023-02 weather unit, HTTP 500 on the
first two attempts and 200 on the third attempt yields outcome success with
2 retry attempts consumed before the success. -/
theorem retry_scenario_two_failures :
    fetchWeather oracle2fail =
      .ok { code := 200, retries_used := 2, sleeps := [2, 4] } ∧
    (processMonth []
        { httpResp := oracle2fail, hasDaily := true } "chicago" 2023 2).1 =
      WStatus.processed :=
  ⟨rfl, rfl⟩

/-! ## C4: retry policy -/

/-- C4 counterexample: `raise_for_status` raises HTTPError — a subclass of
RequestException — for 4xx exactly as for 5xx, and the except clause
catches RequestException, so a 404 on the first attempt is retried (and
here succeeds on the second attempt) instead of failing the unit
immediately. -/
theorem retry_policy_counterexample :
    oracle404 0 = HttpResp.status 404 ∧
    respFails (HttpResp.status 404) = true ∧
    fetchWeather oracle404 =
      .ok { code := 200, retries_used := 1, sleeps := [2] } :=
  ⟨rfl, rfl, rfl⟩

/-- C4 (amended): network errors and every HTTP error status — 4xx and 5xx
alike — are retried up to the fixed bound of 3 attempts with a linearly
increasing backoff delay (base delay times attempt number) between
attempts; there is no immediate-failure path for 4xx.  If all three
attempts fail the fetch raises. -/
theorem retry_policy (oracle : Nat → HttpResp) :
    (∀ k, k < max_retries → (∀ i, i < k → respFails (oracle i) = true) →
      respFails (oracle k) = false →
      fetchWeather oracle =
        .ok { code := statusCodeOf (oracle k), retries_used := k
              sleeps := backoffs k }) ∧
    ((∀ i, i < max_retries → respFails (oracle i) = true) →
      fetchWeather oracle = .error "API request failed after 3 attempts") := by
  constructor
  · intro k hk hfail hok
    have hk3 : k < 3 := hk
    clear hk
    interval_cases k
    · simp [fetchWeather, fetchGo, hok, backoffs]
    · have h0 := hfail 0 (by omega)
      simp [fetchWeather, fetchGo, h0, hok, backoffs, API_RATE_LIMIT_DELAY,
        List.range_succ]
    · have h0 := hfail 0 (by omega)
      have h1 := hfail 1 (by omega)
      simp [fetchWeather, fetchGo, h0, h1, hok, backoffs, API_RATE_LIMIT_DELAY,
        List.range_succ]
  · intro hall
    have h0 := hall 0 (by simp [max_retries])
    have h1 := hall 1 (by simp [max_retries])
    have h2 := hall 2 (by simp [max_retries])
    simp [fetchWeather, fetchGo, h0, h1, h2]

/-- Witness for C4's amended theorem: a network error on the first attempt
is retried and the fetch succeeds on the second attempt with one backoff
sleep of 2 seconds. -/
theorem retry_policy_witness :
    fetchWeather oracleNetErr =
      .ok { code := statusCodeOf (oracleNetErr 1), retries_used := 1
            sleeps := backoffs 1 } :=
  (retry_policy oracleNetErr).1 1 (by decide)
    (fun i hi => by interval_cases i; rfl) rfl

/-! ## C5: write verification -/

/-- C5 counterexample: a weather month processed successfully performs the
upload but no existence check at all — the unit is recorded processed
(success) with zero checkKey operations in its trace. -/
theorem write_verification_counterexample :
    (processMonth [] goodMonthEnv "chicago" 2023 1).1 = WStatus.processed ∧
    (processMonth [] goodMonthEnv "chicago" 2023 1).2 =
      [Op.httpGet, Op.putObject (weatherKey "chicago" 2023 1)] ∧
    ((processMonth [] goodMonthEnv "chicago" 2023 1).2.countP isCheckOp = 0) := by
  decide

/-- C5 (amended): only the trips pipeline verifies its writes — there a unit
is recorded success only when the post-upload existence check passes, and
its trace ends with a checkKey on the written key right after the
putObject.  The weather and GBFS pipelines perform no existence check at
all and record success immediately after the upload call. -/
theorem write_verification (e : DivvyEnv) (f : FileInfo)
    (existing : List String) (wenv : MonthEnv) (location : String)
    (year month : Nat) (resp : Option GbfsData) (endpointName : String)
    (d : ExecDate) (hsuc : (processFile e f).1 = DStatus.success) :
    (e.postUploadExists = true ∧
      (processFile e f).2 =
        [.checkKey f.source_key, .checkKey f.target_key,
          .getObject f.source_key, .putObject f.target_key,
          .checkKey f.target_key]) ∧
    ((processMonth existing wenv location year month).2.countP isCheckOp = 0) ∧
    ((fetchAndStoreGbfs resp endpointName d).2.countP isCheckOp = 0) := by
  refine ⟨?_, ?_, ?_⟩
  · revert hsuc
    unfold processFile
    cases hse : e.sourceExists <;> cases hte : e.targetExists <;>
      cases hdl : e.downloadOk <;> simp
    all_goals cases hfc : findCsv e.zipEntries <;> simp
    all_goals cases hup : e.uploadOk <;> simp
    all_goals cases hpv : e.postUploadExists <;> simp
  · unfold processMonth
    by_cases hk : weatherKey location year month ∈ existing
    · simp [hk]
    · rcases hfw : fetchWeather wenv.httpResp with err | ok
      · simp [hk, hfw, List.countP_eq_zero, List.mem_replicate, isCheckOp]
      · cases hd : wenv.hasDaily <;>
          simp [hk, hfw, hd, List.countP_eq_zero, List.mem_replicate,
            List.mem_append, isCheckOp]
  · rcases resp with _ | r
    · simp [fetchAndStoreGbfs, isCheckOp, List.countP_cons]
    · cases hdt : r.hasData <;>
        simp [fetchAndStoreGbfs, hdt, isCheckOp, List.countP_cons]

/-- Witness for C5's amended theorem: the all-good trips environment yields
success, so the verification facts hold there. -/
theorem write_verification_witness :
    (envAllGood.postUploadExists = true ∧
      (processFile envAllGood (mkFileInfo 2023 1)).2 =
        [.checkKey (mkFileInfo 2023 1).source_key,
          .checkKey (mkFileInfo 2023 1).target_key,
          .getObject (mkFileInfo 2023 1).source_key,
          .putObject (mkFileInfo 2023 1).target_key,
          .checkKey (mkFileInfo 2023 1).target_key]) ∧
    ((processMonth [] goodMonthEnv "chicago" 2023 2).2.countP isCheckOp = 0) ∧
    ((fetchAndStoreGbfs (some respNoLastUpdated) "station_status"
        execDate0).2.countP isCheckOp = 0) :=
  write_verification envAllGood (mkFileInfo 2023 1) [] goodMonthEnv
    "chicago" 2023 2 (some respNoLastUpdated) "station_status" execDate0
    (by decide)

/-! ## C7: partial-failure isolation -/

/-- A trips unit whose source exists and whose target is absent, and that
then hits an exception — download failure, no matching CSV member, upload
failure, or failed post-upload verification — ends with status failed. -/
theorem processFile_failed_of_step_failure (e : DivvyEnv) (f : FileInfo)
    (h1 : e.sourceExists = true) (h2 : e.targetExists = false)
    (h3 : e.downloadOk = false ∨ findCsv e.zipEntries = none ∨
      e.uploadOk = false ∨ e.postUploadExists = false) :
    (processFile e f).1 = DStatus.failed := by
  unfold processFile
  cases hdo : e.downloadOk
  · simp [h1, h2]
  · rcases h3 with h | h | h | h
    · rw [hdo] at h; cases h
    · simp [h1, h2, h]
    · rcases hfc : findCsv e.zipEntries with _ | name
      · simp [h1, h2, hfc]
      · simp [h1, h2, hfc, h]
    · rcases hfc : findCsv e.zipEntries with _ | name
      · simp [h1, h2, hfc]
      · cases hup : e.uploadOk
        · simp [h1, h2, hfc, hup]
        · simp [h1, h2, hfc, hup, h]

/-- C7: in both pipelines per-unit failures are isolated.  Trips: the run
always returns an aggregate summary covering all 24 units, every unit's
outcome is computed from its own environment only, a unit whose own steps
all succeed is recorded success whatever happens to the other units, and an
exception raised while downloading, extracting, uploading or verifying a
unit is caught at the per-unit boundary and becomes a failed outcome for
that unit.  Weather: the month loop of process_location_year covers all 12
months, each month's outcome comes from its own environment only, a month
whose own fetch succeeds with a 'daily' body is recorded processed
regardless of the other months, and a month whose fetch exhausts its
retries is recorded failed while the loop continues. -/
theorem partial_failure_isolation (env : FileInfo → DivvyEnv)
    (existing : List String) (wenv : Nat → MonthEnv) (location : String)
    (year : Nat) :
    ((runDivvy env).results.length = generateMonthlyFiles.length ∧
      (runDivvy env).total_files = generateMonthlyFiles.length ∧
      (∀ g ∈ generateMonthlyFiles,
        (g, processFile (env g) g) ∈ (runDivvy env).results)) ∧
    (∀ f ∈ generateMonthlyFiles, goodDivvyEnv (env f) →
      (processFile (env f) f).1 = DStatus.success) ∧
    (∀ g ∈ generateMonthlyFiles, (env g).sourceExists = true →
      (env g).targetExists = false →
      ((env g).downloadOk = false ∨ findCsv (env g).zipEntries = none ∨
        (env g).uploadOk = false ∨ (env g).postUploadExists = false) →
      (processFile (env g) g).1 = DStatus.failed) ∧
    ((processLocationYear existing wenv location year).length =
        MONTHS.length ∧
      (∀ m ∈ MONTHS,
        (m, processMonth existing (wenv m) location year m) ∈
          processLocationYear existing wenv location year)) ∧
    (∀ m ∈ MONTHS, weatherKey location year m ∉ existing →
      (wenv m).hasDaily = true →
      (∃ okv, fetchWeather (wenv m).httpResp = .ok okv) →
      (processMonth existing (wenv m) location year m).1 =
        WStatus.processed) ∧
    (∀ m ∈ MONTHS, weatherKey location year m ∉ existing →
      fetchWeather (wenv m).httpResp =
        .error "API request failed after 3 attempts" →
      (processMonth existing (wenv m) location year m).1 = WStatus.failed) := by
  refine ⟨⟨?_, ?_, ?_⟩, ?_, ?_, ⟨?_, ?_⟩, ?_, ?_⟩
  · rw [runDivvy, runDivvyOn_results]; simp
  · rw [runDivvy, runDivvyOn_total]
  · intro g hg
    rw [runDivvy, runDivvyOn_results]
    exact List.mem_map_of_mem _ hg
  · intro f hf hgood
    obtain ⟨h1, h2, h3, h4, h5, h6⟩ := hgood
    rcases hopt : findCsv (env f).zipEntries with _ | name
    · rw [hopt] at h4; simp at h4
    · simp [processFile, h1, h2, h3, h5, h6, hopt]
  · intro g hg h1 h2 h3
    exact processFile_failed_of_step_failure (env g) g h1 h2 h3
  · simp [processLocationYear]
  · intro m hm
    exact List.mem_map_of_mem _ hm
  · intro m hm hkey hd hok
    obtain ⟨okv, hok⟩ := hok
    simp [processMonth, hkey, hok, hd]
  · intro m hm hkey herr
    simp [processMonth, hkey, herr]

/-- An environment in which the download of the unit raises. -/
def envDownloadFail : DivvyEnv :=
  { sourceExists := true, targetExists := false, downloadOk := false
    zipEntries := [], uploadOk := true, postUploadExists := true }

/-- A mixed trips environment: the January 2023 unit is all-good, every
other unit's download raises. -/
def envMixed : FileInfo → DivvyEnv := fun f =>
  if f.year = 2023 ∧ f.month = 1 then envAllGood else envDownloadFail

/-- A mixed weather environment: month 1 fetches fine, every other month's
fetch gets three straight 500 responses. -/
def wenvMixed : Nat → MonthEnv := fun m =>
  if m = 1 then goodMonthEnv
  else { httpResp := oracle3fail, hasDaily := true }

/-- Witness for C7 at a mixed run: January succeeds although every other
unit (trips download, weather fetch) fails, and both loops return full
summaries. -/
theorem partial_failure_isolation_witness :
    ((runDivvy envMixed).results.length = generateMonthlyFiles.length ∧
      (runDivvy envMixed).total_files = generateMonthlyFiles.length ∧
      (∀ g ∈ generateMonthlyFiles,
        (g, processFile (envMixed g) g) ∈ (runDivvy envMixed).results)) ∧
    (processFile (envMixed (mkFileInfo 2023 1)) (mkFileInfo 2023 1)).1 =
      DStatus.success ∧
    (processFile (envMixed (mkFileInfo 2023 2)) (mkFileInfo 2023 2)).1 =
      DStatus.failed ∧
    ((processLocationYear [] wenvMixed "chicago" 2023).length =
        MONTHS.length ∧
      (∀ m ∈ MONTHS,
        (m, processMonth [] (wenvMixed m) "chicago" 2023 m) ∈
          processLocationYear [] wenvMixed "chicago" 2023)) ∧
    (processMonth [] (wenvMixed 1) "chicago" 2023 1).1 =
      WStatus.processed ∧
    (processMonth [] (wenvMixed 2) "chicago" 2023 2).1 = WStatus.failed :=
  ⟨(partial_failure_isolation envMixed [] wenvMixed "chicago" 2023).1,
    (partial_failure_isolation envMixed [] wenvMixed "chicago" 2023).2.1
      (mkFileInfo 2023 1) (by decide) ⟨rfl, rfl, rfl, rfl, rfl, rfl⟩,
    (partial_failure_isolation envMixed [] wenvMixed "chicago" 2023).2.2.1
      (mkFileInfo 2023 2) (by decide) (by decide) (by decide)
      (Or.inl (by decide)),
    (partial_failure_isolation envMixed [] wenvMixed "chicago" 2023).2.2.2.1,
    (partial_failure_isolation envMixed [] wenvMixed "chicago" 2023).2.2.2.2.1
      1 (by decide) (by decide) (by decide)
      ⟨{ code := 200, retries_used := 0, sleeps := [] }, rfl⟩,
    (partial_failure_isolation envMixed [] wenvMixed "chicago" 2023).2.2.2.2.2
      2 (by decide) (by decide) rfl⟩

/-! ## C8: missing source -/

/-- C8 counterexample: with every source ZIP absent, all 24 units are
recorded source_missing and no download is attempted, yet the run's failure
counter is 24 — the source_missing branch executes `failed_files += 1`, so
a missing source does increment the failure counter. -/
theorem source_missing_counterexample :
    ((runDivvy envAllMissing).results.map fun r => r.2.1) =
      List.replicate 24 DStatus.source_missing ∧
    (runDivvy envAllMissing).failed = 24 := by
  decide

/-- C8 (amended): a trips unit whose source ZIP is absent is recorded
source_missing — a status distinct from failed — and no download and no
write is attempted for it; but the run summary's failed counter counts
source_missing units together with failed ones. -/
theorem source_missing_no_download (env : FileInfo → DivvyEnv) (f : FileInfo)
    (hf : f ∈ generateMonthlyFiles)
    (hmiss : (env f).sourceExists = false) :
    (processFile (env f) f).1 = DStatus.source_missing ∧
    DStatus.source_missing ≠ DStatus.failed ∧
    ((processFile (env f) f).2.countP isTransferOp = 0) ∧
    (runDivvy env).failed =
      generateMonthlyFiles.countP
        (fun g => countsAsFailed (processFile (env g) g).1) ∧
    countsAsFailed DStatus.source_missing = true := by
  refine ⟨?_, by decide, ?_, ?_, rfl⟩
  · simp [processFile, hmiss]
  · simp [processFile, hmiss, List.countP_cons, isTransferOp]
  · rw [runDivvy, runDivvyOn_failed]

/-- Witness for C8's amended theorem at the all-missing environment. -/
theorem source_missing_no_download_witness :
    (processFile (envAllMissing (mkFileInfo 2023 1)) (mkFileInfo 2023 1)).1 =
      DStatus.source_missing ∧
    DStatus.source_missing ≠ DStatus.failed ∧
    ((processFile (envAllMissing (mkFileInfo 2023 1))
        (mkFileInfo 2023 1)).2.countP isTransferOp = 0) ∧
    (runDivvy envAllMissing).failed =
      generateMonthlyFiles.countP
        (fun g => countsAsFailed (processFile (envAllMissing g) g).1) ∧
    countsAsFailed DStatus.source_missing = true :=
  source_missing_no_download envAllMissing (mkFileInfo 2023 1) (by decide) rfl

/-! ## C2: key determinism and injectivity -/

/-- The 72 storage keys of the enumerated units are pairwise distinct. -/
theorem allUnits_map_key_nodup : (allUnits.map build_key).Nodup := by
  decide

/-- C2: build_key is a pure function of the unit's fields — equal units get
the identical key — and over the full enumerated unit set it is injective:
two distinct units always receive different keys.  The keys have exactly
the documented trips and weather shapes. -/
theorem build_key_deterministic_injective (u v : UnitOfWork)
    (hu : u ∈ allUnits) (hv : v ∈ allUnits) :
    (u = v → build_key u = build_key v) ∧
    (u ≠ v → build_key u ≠ build_key v) ∧
    build_key ⟨.trips, "", 2023, 1⟩ =
      "divvy-trips/year=2023/month=01/202301-divvy-tripdata.csv" ∧
    build_key ⟨.weather, "chicago", 2023, 1⟩ =
      "weather-data/location=chicago/year=2023/month=01/weather_data_chicago_2023_01.csv" := by
  refine ⟨fun h => h ▸ rfl, ?_, by decide, by decide⟩
  intro hne heq
  exact hne (List.inj_on_of_nodup_map allUnits_map_key_nodup hu hv heq)

/-- Witness for C2 at two concrete enumerated units. -/
theorem build_key_deterministic_injective_witness :
    ((⟨.trips, "", 2023, 1⟩ : UnitOfWork) = ⟨.trips, "", 2023, 2⟩ →
      build_key ⟨.trips, "", 2023, 1⟩ = build_key ⟨.trips, "", 2023, 2⟩) ∧
    ((⟨.trips, "", 2023, 1⟩ : UnitOfWork) ≠ ⟨.trips, "", 2023, 2⟩ →
      build_key ⟨.trips, "", 2023, 1⟩ ≠ build_key ⟨.trips, "", 2023, 2⟩) ∧
    build_key ⟨.trips, "", 2023, 1⟩ =
      "divvy-trips/year=2023/month=01/202301-divvy-tripdata.csv" ∧
    build_key ⟨.weather, "chicago", 2023, 1⟩ =
      "weather-data/location=chicago/year=2023/month=01/weather_data_chicago_2023_01.csv" :=
  build_key_deterministic_injective ⟨.trips, "", 2023, 1⟩ ⟨.trips, "", 2023, 2⟩
    (by decide) (by decide)

/-! ## C9: GBFS schema validation -/

/-- C9 counterexample: a GBFS body with the 'data' envelope but without
'last_updated' is stored successfully — `data.get('last_updated',
execution_date.timestamp())` silently substitutes the execution timestamp —
instead of failing with a schema error. -/
theorem gbfs_schema_counterexample :
    (fetchAndStoreGbfs (some respNoLastUpdated) "station_information"
        execDate0).1 =
      GbfsOutcome.stored (gbfsKey "station_information" execDate0)
        execDate0.epoch ∧
    (fetchAndStoreGbfs (some respNoLastUpdated) "station_information"
        execDate0).1 ≠ GbfsOutcome.errorInvalid := by
  decide

/-- C9 (amended): the GBFS adapter fails the unit when the parsed JSON lacks
the 'data' envelope; a missing 'last_updated' is not an error — its value
is defaulted to the execution timestamp and the unit is stored. -/
theorem gbfs_schema_validation (r : GbfsData) (endpointName : String)
    (d : ExecDate) (hd : r.hasData = true) :
    (fetchAndStoreGbfs (some r) endpointName d).1 =
      GbfsOutcome.stored (gbfsKey endpointName d)
        (if r.hasLastUpdated then r.lastUpdated else d.epoch) ∧
    (∀ rbad : GbfsData, rbad.hasData = false →
      (fetchAndStoreGbfs (some rbad) endpointName d).1 =
        GbfsOutcome.errorInvalid) := by
  constructor
  · simp [fetchAndStoreGbfs, hd]
  · intro rbad hbad
    simp [fetchAndStoreGbfs, hbad]

/-- Witness for C9's amended theorem at the data-without-last_updated body. -/
theorem gbfs_schema_validation_witness :
    (fetchAndStoreGbfs (some respNoLastUpdated) "system_information"
        execDate0).1 =
      GbfsOutcome.stored (gbfsKey "system_information" execDate0)
        (if respNoLastUpdated.hasLastUpdated then respNoLastUpdated.lastUpdated
          else execDate0.epoch) ∧
    (∀ rbad : GbfsData, rbad.hasData = false →
      (fetchAndStoreGbfs (some rbad) "system_information" execDate0).1 =
        GbfsOutcome.errorInvalid) :=
  gbfs_schema_validation respNoLastUpdated "system_information" execDate0 rfl

/-! ## C10: the checkpoint diff partitions the expected set -/

/-- C10: for every store listing, existing_files and missing_files are
disjoint, a key is expected exactly when it is in one of the two lists,
existing_files holds precisely the expected keys present in the listing,
and total_expected is 48 (2 locations × 2 years × 12 months). -/
theorem checkpoint_diff_partitions (listing : List String) :
    ((check_existing_files listing).existing_files).Disjoint
      ((check_existing_files listing).missing_files) ∧
    (∀ k, (k ∈ (check_existing_files listing).existing_files ∨
        k ∈ (check_existing_files listing).missing_files) ↔
      k ∈ expectedWeatherFiles) ∧
    (∀ k, k ∈ (check_existing_files listing).existing_files ↔
      (k ∈ expectedWeatherFiles ∧ k ∈ listing)) ∧
    (check_existing_files listing).total_expected = 48 ∧
    expectedWeatherFiles.length = 48 := by
  refine ⟨?_, ?_, ?_, rfl, rfl⟩
  · intro k hk hk2
    simp only [check_existing_files, List.mem_filter,
      decide_eq_true_eq] at hk hk2
    exact hk2.2 hk.2
  · intro k
    simp only [check_existing_files, List.mem_filter, decide_eq_true_eq]
    constructor
    · rintro (⟨h, _⟩ | ⟨h, _⟩) <;> exact h
    · intro h
      by_cases hmem : k ∈ listing
      · exact Or.inl ⟨h, hmem⟩
      · exact Or.inr ⟨h, hmem⟩
  · intro k
    simp [check_existing_files, List.mem_filter]

/-! ## C6: completion percentage -/

/-- C6 counterexample: the final-report percentage divides the count of all
'.csv' keys under the 'weather-data/' prefix by the constant 48, so a store
listing with 49 junk csv keys reports a completion above 100. -/
theorem completion_percentage_counterexample :
    100 < finalReportCompletion junkListing := by
  have h : (junkListing.filter fun k => strEndsWith k ".csv").length = 49 := by
    decide
  unfold finalReportCompletion
  rw [h]
  norm_num

/-- C6 (amended): the checkpoint-time percentage of check_existing_files is
always in [0, 100] and is 100 exactly when every expected weather key is in
the listing; the final-report percentage (generate_final_report, and the
manual script's final status) divides the count of all '.csv' keys under
the prefix by 48, so it satisfies the same bounds and the
100-means-complete property only when the listing is duplicate-free and its
'.csv' keys are all expected weather keys. -/
theorem pctOf48 (a : Nat) (ha : a ≤ 48) :
    0 ≤ ((a : ℚ) / 48) * 100 ∧ ((a : ℚ) / 48) * 100 ≤ 100 ∧
      (((a : ℚ) / 48) * 100 = 100 ↔ a = 48) := by
  have haq : (a : ℚ) ≤ 48 := by exact_mod_cast ha
  refine ⟨by positivity, ?_, ?_⟩
  · rw [div_mul_eq_mul_div, div_le_iff₀ (by norm_num)]
    linarith
  · rw [div_mul_eq_mul_div, div_eq_iff (by norm_num)]
    constructor
    · intro h
      have : (a : ℚ) = 48 := by linarith
      exact_mod_cast this
    · intro h
      subst h
      norm_num

theorem completion_percentage_bounds (listing : List String) :
    (0 ≤ (check_existing_files listing).completion_percentage ∧
      (check_existing_files listing).completion_percentage ≤ 100 ∧
      ((check_existing_files listing).completion_percentage = 100 ↔
        ∀ k ∈ expectedWeatherFiles, k ∈ listing)) ∧
    (listing.Nodup →
      (∀ k ∈ listing, strEndsWith k ".csv" = true →
        k ∈ expectedWeatherFiles) →
      (0 ≤ finalReportCompletion listing ∧
        finalReportCompletion listing ≤ 100 ∧
        (finalReportCompletion listing = 100 →
          ∀ k ∈ expectedWeatherFiles, k ∈ listing))) := by
  have hlen : expectedWeatherFiles.length = 48 := rfl
  constructor
  · have hle : (expectedWeatherFiles.filter
        fun k => k ∈ listing).length ≤ 48 := by
      calc (expectedWeatherFiles.filter fun k => k ∈ listing).length
          ≤ expectedWeatherFiles.length := List.length_filter_le _ _
        _ = 48 := hlen
    have hb := pctOf48 (expectedWeatherFiles.filter
      fun k => k ∈ listing).length hle
    have hiff : (expectedWeatherFiles.filter
          fun k => k ∈ listing).length = 48 ↔
        ∀ k ∈ expectedWeatherFiles, k ∈ listing := by
      constructor
      · intro h
        have hsl := List.filter_sublist
          (l := expectedWeatherFiles) (p := fun k => decide (k ∈ listing))
        have heq := hsl.eq_of_length (by rw [h, hlen])
        intro k hk
        have := (List.filter_eq_self.mp heq) k hk
        exact of_decide_eq_true this
      · intro h
        have : expectedWeatherFiles.filter
            (fun k => decide (k ∈ listing)) = expectedWeatherFiles :=
          List.filter_eq_self.mpr fun a ha => decide_eq_true (h a ha)
        rw [this, hlen]
    have hshape : (check_existing_files listing).completion_percentage =
        ((expectedWeatherFiles.filter
          fun k => k ∈ listing).length : ℚ) / 48 * 100 := by
      simp only [check_existing_files, hlen]
      norm_num
    rw [hshape]
    exact ⟨hb.1, hb.2.1, hb.2.2.trans hiff⟩
  · intro hnd hsub
    have hcsub : (listing.filter fun k => strEndsWith k ".csv") ⊆
        expectedWeatherFiles := by
      intro k hk
      have hk2 := List.mem_filter.mp hk
      exact hsub k hk2.1 hk2.2
    have hcnd : (listing.filter fun k => strEndsWith k ".csv").Nodup :=
      hnd.filter _
    have hsp := List.subperm_of_subset hcnd hcsub
    have hle : (listing.filter fun k => strEndsWith k ".csv").length ≤ 48 := by
      calc (listing.filter fun k => strEndsWith k ".csv").length
          ≤ expectedWeatherFiles.length := hsp.length_le
        _ = 48 := hlen
    have hb := pctOf48 (listing.filter fun k => strEndsWith k ".csv").length hle
    refine ⟨hb.1, hb.2.1, ?_⟩
    intro h100 k hk
    have hlen2 : (listing.filter fun k => strEndsWith k ".csv").length = 48 :=
      hb.2.2.mp h100
    have hperm := hsp.perm_of_length_le (by rw [hlen2, hlen])
    have hmem : k ∈ listing.filter fun k => strEndsWith k ".csv" :=
      hperm.mem_iff.mpr hk
    exact (List.mem_filter.mp hmem).1

/-- A one-key listing holding the first expected weather key. -/
def oneKeyListing : List String := [weatherKey "chicago" 2023 1]

/-- Witness for C6's amended theorem at a duplicate-free listing whose only
csv key is an expected weather key. -/
theorem completion_percentage_bounds_witness :
    (0 ≤ (check_existing_files oneKeyListing).completion_percentage ∧
      (check_existing_files oneKeyListing).completion_percentage ≤ 100 ∧
      ((check_existing_files oneKeyListing).completion_percentage = 100 ↔
        ∀ k ∈ expectedWeatherFiles, k ∈ oneKeyListing)) ∧
    (0 ≤ finalReportCompletion oneKeyListing ∧
      finalReportCompletion oneKeyListing ≤ 100 ∧
      (finalReportCompletion oneKeyListing = 100 →
        ∀ k ∈ expectedWeatherFiles, k ∈ oneKeyListing)) :=
  ⟨(completion_percentage_bounds oneKeyListing).1,
    (completion_percentage_bounds oneKeyListing).2 (by decide) (by decide)⟩

end Divvy
